import Mathlib

/-!
Verification development for the Streamlit PowerPoint-generator app
(`streamlit_integration.py`).  The app's logic is string glue: it builds
dropdown labels `"<id> - <name>"`, extracts the id back by splitting on
`" - "`, classifies the stored procedure's result message by searching for
`"successfully"` in the lowercased message, and extracts a file name and a
download URL from the message with Python `str.split` / `str.strip`.

Strings are modelled as `List Char`.  Python's `str.split(sep)` indexing
`[0]` / `[1]`, `str.strip()`, `str.lower()` and the `in` operator are
embedded below; a Python `IndexError` (index `[1]` on a one-element split)
and `NameError` (use of an unassigned variable) are modelled with `Except`.
`Char.toLower` lowercases ASCII letters, which covers every marker the app
searches for; Unicode-only case foldings are outside the model.
-/

namespace PPTApp

/-- Python whitespace test used by `str.strip()` (ASCII/Latin-1 range). -/
def pyIsSpace (c : Char) : Bool :=
  c = ' ' || ('\x09' ≤ c && c ≤ '\x0d') || ('\x1c' ≤ c && c ≤ '\x1f') ||
    c = '\x85' || c = '\xa0'

/-- Python `str.strip()`: drop whitespace from both ends. -/
def pyStrip (s : List Char) : List Char :=
  ((s.dropWhile pyIsSpace).reverse.dropWhile pyIsSpace).reverse

/-- Python `str.lower()` (ASCII letters). -/
def pyLower (s : List Char) : List Char :=
  s.map Char.toLower

/-- Split at the first occurrence of `sep`: returns `some (before, after)`
where `s = before ++ sep ++ after` and the occurrence is leftmost, or
`none` when `sep` does not occur in `s`. -/
def splitOnce (sep : List Char) : List Char → Option (List Char × List Char)
  | [] => if sep.isPrefixOf ([] : List Char) then some ([], []) else none
  | c :: rest =>
    if sep.isPrefixOf (c :: rest) then some ([], (c :: rest).drop sep.length)
    else
      match splitOnce sep rest with
      | some (pre, post) => some (c :: pre, post)
      | none => none

/-- Python `sub in s` (substring containment). -/
def pyContains (sub s : List Char) : Bool :=
  (splitOnce sub s).isSome

/-- Python `s.split(sep)[0]`: the text before the first occurrence of
`sep`, or all of `s` when `sep` does not occur. -/
def split0 (sep s : List Char) : List Char :=
  match splitOnce sep s with
  | some (pre, _) => pre
  | none => s

/-- Exceptions the result-rendering code can raise: `IndexError` from
`split(...)[1]` on a message without the separator, `NameError` from using
`file_name` when the `"File:"` branch never assigned it. -/
inductive PyErr
  | indexError
  | nameError
deriving DecidableEq

/-- Python `s.split(sep)[1]`: the text between the first and second
occurrences of `sep` (to the end when `sep` occurs once); `IndexError`
when `sep` does not occur. -/
def split1 (sep s : List Char) : Except PyErr (List Char) :=
  match splitOnce sep s with
  | some (_, post) => .ok (split0 sep post)
  | none => .error .indexError

/-- The text after the first occurrence of `sep` (all of `s` when absent). -/
def restAfterFirst (sep s : List Char) : List Char :=
  match splitOnce sep s with
  | some (_, post) => post
  | none => s

/-! Literal markers from `streamlit_integration.py`. -/

def sSuccess : List Char := "successfully".data
def sFileMarker : List Char := "File:".data
def sBar : List Char := "|".data
def sDLShort : List Char := "Download URL".data
def sDLFull : List Char := "Download URL (valid for 24 hours):".data
def sSep : List Char := " - ".data
def stageGet : List Char := "GET @POWERPOINT_DB.REPORTING.PPT_STAGE/".data
def stageTail : List Char := " file://./;".data

/-! ### Result-message parsing (lines 133-146 of the source)

`classifySuccess` is the check `"successfully" in result_message.lower()`;
`extractFileName` is `result_message.split("File:")[1].split("|")[0].strip()`;
`extractUrl` is
`result_message.split("Download URL (valid for 24 hours):")[1].strip()`. -/

def classifySuccess (msg : List Char) : Bool :=
  pyContains sSuccess (pyLower msg)

def extractFileName (msg : List Char) : Except PyErr (List Char) :=
  (split1 sFileMarker msg).map (fun seg => pyStrip (split0 sBar seg))

def extractUrl (msg : List Char) : Except PyErr (List Char) :=
  (split1 sDLFull msg).map pyStrip

/-! ### Rendering effects (the `st.*` calls of lines 136-175)

Each constructor records one visible output, in the order the script
emits it. -/

inductive Effect
  | successBanner
  | fileNameInfo (name : List Char)
  | downloadHeader
  | downloadLink (url : List Char)
  | urlCode (url : List Char)
  | option2Header
  | snowsqlCode (cmd : List Char)
  | tipInfo
  | resultTextArea (raw : List Char)
  | failBanner
  | errorTextArea (raw : List Char)
  | generationError
deriving DecidableEq

/-- The SnowSQL command of line 165:
`f"GET @POWERPOINT_DB.REPORTING.PPT_STAGE/\x7bfile_name\x7d file://./;"`. -/
def snowsqlCmd (fileName : List Char) : List Char :=
  stageGet ++ fileName ++ stageTail

/-- Lines 140-142: when `"File:"` occurs in the message, compute and show
the file name; returns the effects and the value bound to `file_name`
(`none` when the branch was skipped and the variable stays unassigned). -/
def renderFileBlock (msg : List Char) : Except PyErr (List Effect × Option (List Char)) :=
  if pyContains sFileMarker msg then
    match extractFileName msg with
    | .ok fn => .ok ([Effect.fileNameInfo fn], some fn)
    | .error e => .error e
  else .ok ([], none)

/-- Lines 144-171: the `"Download URL"` branch.  On the error side the
effects already emitted before the exception are returned together with
the exception: the URL split of line 146 can raise `IndexError`, and the
`file_name` use of line 165 raises `NameError` when the `"File:"` branch
never ran -- after the link and URL were already displayed. -/
def renderUrlBlock (msg : List Char) (fileName? : Option (List Char)) :
    Except (List Effect × PyErr) (List Effect) :=
  if pyContains sDLShort msg then
    match extractUrl msg with
    | .error e => .error ([], e)
    | .ok url =>
      let shown := [Effect.downloadHeader, Effect.downloadLink url,
        Effect.urlCode url, Effect.option2Header]
      match fileName? with
      | none => .error (shown, PyErr.nameError)
      | some fn => .ok (shown ++ [Effect.snowsqlCode (snowsqlCmd fn), Effect.tipInfo])
  else .ok [Effect.resultTextArea msg]

/-- Lines 136-175: render one result message.  Returns the effects shown,
in order, and the exception that escaped the branch (caught by the
handler), if any. -/
def renderResult (msg : List Char) : List Effect × Option PyErr :=
  if classifySuccess msg then
    match renderFileBlock msg with
    | .error e => ([Effect.successBanner], some e)
    | .ok (effsF, fileName?) =>
      match renderUrlBlock msg fileName? with
      | .error (effsU, e) => (Effect.successBanner :: (effsF ++ effsU), some e)
      | .ok effsU => (Effect.successBanner :: (effsF ++ effsU), none)
  else ([Effect.failBanner, Effect.errorTextArea msg], none)

/-- Lines 124-178: the whole `try`/`except` around the procedure call and
the rendering.  `callResult` is the outcome of
`session.sql("CALL ...").collect()[0][0]`; any exception from the call or
from rendering is caught and surfaced as the inline
`"❌ Error generating PowerPoint"` message (line 178). -/
def handleGenerate (callResult : Except PyErr (List Char)) : List Effect :=
  match callResult with
  | .error _ => [Effect.generationError]
  | .ok msg =>
    match renderResult msg with
    | (effs, none) => effs
    | (effs, some _) => effs ++ [Effect.generationError]

/-! ### Form logic (lines 71-130 of the source) -/

/-- Line 71: the dropdown label `f"\x7brow['ACCOUNT_ID']\x7d - \x7brow['ACCOUNT_NAME']\x7d"`. -/
def accountLabel (accountId accountName : List Char) : List Char :=
  accountId ++ sSep ++ accountName

/-- Line 80: `selected_account.split(' - ')[0]`. -/
def extractAccountId (label : List Char) : List Char :=
  split0 sSep label

/-- Line 109: `final_account_id = manual_account_id if manual_account_id
else account_id`.  `accountId?` is `None` when loading the accounts
failed (line 85). -/
def finalAccountId (manual : List Char) (accountId? : Option (List Char)) :
    Option (List Char) :=
  if manual ≠ [] then some manual else accountId?

/-- Python truthiness of `final_account_id` (a string or `None`). -/
def pyTruthy : Option (List Char) → Bool
  | none => false
  | some s => !s.isEmpty

/-- Line 120: `disabled=not final_account_id`. -/
def generateDisabled (finalId? : Option (List Char)) : Bool :=
  !pyTruthy finalId?

/-- Lines 124-130: the procedure is called iff
`generate_button and final_account_id` is truthy; returns the identifier
passed to `GENERATE_ACCOUNT_POWERPOINT`, `none` when no call happens. -/
def procCalledWith (buttonClicked : Bool) (finalId? : Option (List Char)) :
    Option (List Char) :=
  if buttonClicked && pyTruthy finalId? then finalId? else none

/-! ### Spec-side readings, for comparison with the code (C4, C5) -/

/-- The spec's reading of the displayed file name (C4): the text between
the first occurrence of `"File:"` and the next occurrence of `"|"` (or
the end of the message), with surrounding whitespace stripped. -/
def claimedFileName (msg : List Char) : List Char :=
  pyStrip (split0 sBar (restAfterFirst sFileMarker msg))

/-- The spec's reading of the extracted URL (C5): the text following the
first occurrence of the full marker, to the END of the string, stripped. -/
def claimedUrl (msg : List Char) : List Char :=
  pyStrip (restAfterFirst sDLFull msg)

/-- The value line 141 assigns to `file_name`, when the `"File:"` guard
holds: text after the first `"File:"`, cut at the next `"File:"` (Python
`split` yields the piece between the first two separators), then cut at
the first `"|"`, stripped. -/
def codeFileName (msg : List Char) : List Char :=
  pyStrip (split0 sBar (split0 sFileMarker (restAfterFirst sFileMarker msg)))

/-- The value line 146 assigns to `url`, when the full marker occurs:
text after the first full marker, cut at the next full marker, stripped. -/
def codeUrl (msg : List Char) : List Char :=
  pyStrip (split0 sDLFull (restAfterFirst sDLFull msg))

/-! ### Boolean observers on effect lists, for closed statements -/

def hasDownloadLink (effs : List Effect) : Bool :=
  effs.any fun e => match e with | Effect.downloadLink _ => true | _ => false

def hasRawTextArea (effs : List Effect) : Bool :=
  effs.any fun e => match e with | Effect.resultTextArea _ => true | _ => false

example : splitOnce "b".data "abc".data = some ("a".data, "c".data) := by decide
example : split0 "|".data "x|y|z".data = "x".data := by decide
example : split1 "|".data "x|y|z".data = .ok "y".data := rfl
example : split1 "|".data "xyz".data = .error .indexError := rfl
example : pyStrip "  a b  ".data = "a b".data := by decide
example : pyContains "File:".data "a File: b".data = true := by decide
example : pyContains "File:".data "a File b".data = false := by decide

example : classifySuccess "Done SUCCESSFULLY".data = true := by decide
example : classifySuccess "failed".data = false := by decide

example :
    extractFileName "File: Acme_20241027.pptx | Download URL (valid for 24 hours): https://x".data
      = .ok "Acme_20241027.pptx".data := rfl

example :
    extractUrl "File: Acme_20241027.pptx | Download URL (valid for 24 hours): https://x".data
      = .ok "https://x".data := rfl

example :
    renderResult "nope".data = ([Effect.failBanner, Effect.errorTextArea "nope".data], none) := rfl

example :
    renderResult "successfully".data
      = ([Effect.successBanner, Effect.resultTextArea "successfully".data], none) := rfl

example :
    renderResult "successfully File: a.pptx".data
      = ([Effect.successBanner, Effect.fileNameInfo "a.pptx".data,
          Effect.resultTextArea "successfully File: a.pptx".data], none) := rfl

example :
    renderResult "successfully Download URL oops".data
      = ([Effect.successBanner], some PyErr.indexError) := rfl

example :
    renderResult "successfully Download URL (valid for 24 hours): https://x".data
      = ([Effect.successBanner, Effect.downloadHeader,
          Effect.downloadLink "https://x".data, Effect.urlCode "https://x".data,
          Effect.option2Header], some PyErr.nameError) := rfl

example :
    renderResult "Generated successfully. File: a.pptx | Download URL (valid for 24 hours): https://x".data
      = ([Effect.successBanner, Effect.fileNameInfo "a.pptx".data,
          Effect.downloadHeader, Effect.downloadLink "https://x".data,
          Effect.urlCode "https://x".data, Effect.option2Header,
          Effect.snowsqlCode "GET @POWERPOINT_DB.REPORTING.PPT_STAGE/a.pptx file://./;".data,
          Effect.tipInfo], none) := rfl

example : extractAccountId (accountLabel "ACC001".data "Acme Corp".data) = "ACC001".data := rfl
example : extractAccountId (accountLabel "A - B".data "Name".data) = "A".data := rfl

/-! ### Correctness of the string primitives -/

/-- `splitOnce` succeeds exactly when `sep` occurs as a substring. -/
theorem splitOnce_isSome_iff (sep : List Char) :
    ∀ s : List Char, (splitOnce sep s).isSome = true ↔ sep <:+: s := by
  intro s
  induction s with
  | nil =>
    constructor
    · intro hs
      simp only [splitOnce] at hs
      by_cases h : sep.isPrefixOf ([] : List Char) = true
      · exact ( List.isPrefixOf_iff_prefix.mp h).isInfix
      · simp [h] at hs
    · intro hinf
      have hsep : sep = [] := List.infix_nil.mp hinf
      subst hsep
      simp [splitOnce, List.isPrefixOf]
  | cons c rest ih =>
    constructor
    · intro hs
      simp only [splitOnce] at hs
      by_cases h : sep.isPrefixOf (c :: rest) = true
      · exact ( List.isPrefixOf_iff_prefix.mp h).isInfix
      · simp only [h, Bool.false_eq_true, if_false] at hs
        cases hsr : splitOnce sep rest with
        | none => rw [hsr] at hs; simp at hs
        | some pr =>
          exact List.infix_cons (ih.mp (by rw [hsr]; rfl))
    · intro hinf
      rcases List.infix_cons_iff.mp hinf with hpre | hinf'
      · have h : sep.isPrefixOf (c :: rest) = true := List.isPrefixOf_iff_prefix.mpr hpre
        simp [splitOnce, h]
      · have := ih.mpr hinf'
        simp only [splitOnce]
        by_cases h : sep.isPrefixOf (c :: rest) = true
        · simp [h]
        · simp only [h, Bool.false_eq_true, if_false]
          cases hsr : splitOnce sep rest with
          | none => rw [hsr] at this; simp at this
          | some pr => simp

/-- Python `in` is substring containment. -/
theorem pyContains_iff {sub s : List Char} :
    pyContains sub s = true ↔ sub <:+: s :=
  splitOnce_isSome_iff sub s

/-- When `splitOnce` succeeds, it decomposes the string around `sep`. -/
theorem splitOnce_eq_some (sep : List Char) :
    ∀ s pre post, splitOnce sep s = some (pre, post) → s = pre ++ sep ++ post := by
  intro s
  induction s with
  | nil =>
    intro pre post h
    simp only [splitOnce] at h
    by_cases hp : sep.isPrefixOf ([] : List Char) = true
    · have hsep : sep = [] := List.prefix_nil.mp ( List.isPrefixOf_iff_prefix.mp hp)
      rw [if_pos hp] at h
      cases h
      simp [hsep]
    · simp [hp] at h
  | cons c rest ih =>
    intro pre post h
    simp only [splitOnce] at h
    by_cases hp : sep.isPrefixOf (c :: rest) = true
    · rw [if_pos hp] at h
      cases h
      rcases List.isPrefixOf_iff_prefix.mp hp with ⟨t, ht⟩
      rw [← ht, List.drop_left]
      simp
    · rw [if_neg hp] at h
      cases hsr : splitOnce sep rest with
      | none => rw [hsr] at h; simp at h
      | some pr =>
        rw [hsr] at h
        cases h
        have := ih pr.1 pr.2 (by rw [hsr])
        simp [this]

/-- `splitOnce` splits at the FIRST occurrence: no occurrence of `sep`
starts strictly inside the `pre` part. -/
theorem splitOnce_min (sep : List Char) :
    ∀ s pre post, splitOnce sep s = some (pre, post) →
      ∀ i, i < pre.length → ¬ sep <+: s.drop i := by
  intro s
  induction s with
  | nil =>
    intro pre post h i hi
    simp only [splitOnce] at h
    by_cases hp : sep.isPrefixOf ([] : List Char) = true
    · rw [if_pos hp] at h; cases h; simp at hi
    · simp [hp] at h
  | cons c rest ih =>
    intro pre post h i hi
    simp only [splitOnce] at h
    by_cases hp : sep.isPrefixOf (c :: rest) = true
    · rw [if_pos hp] at h; cases h; simp at hi
    · rw [if_neg hp] at h
      cases hsr : splitOnce sep rest with
      | none => rw [hsr] at h; simp at h
      | some pr =>
        rw [hsr] at h
        cases h
        cases i with
        | zero =>
          intro hpre
          exact hp ( List.isPrefixOf_iff_prefix.mpr hpre)
        | succ j =>
          simp only [List.length_cons, Nat.succ_lt_succ_iff] at hi
          exact ih pr.1 pr.2 (by rw [hsr]) j hi

/-- Containment is preserved by prepending a character. -/
theorem pyContains_cons {sub rest : List Char} (c : Char)
    (h : pyContains sub rest = true) : pyContains sub (c :: rest) = true :=
  pyContains_iff.mpr (List.infix_cons (pyContains_iff.mp h))

/-- When `sep` does not occur, `split(sep)[0]` is the whole string. -/
theorem split0_of_not_contains {sep s : List Char}
    (h : pyContains sep s = false) : split0 sep s = s := by
  unfold split0
  cases hs : splitOnce sep s with
  | none => rfl
  | some pr => unfold pyContains at h; rw [hs] at h; simp at h

/-- When `sep` occurs, `split(sep)[1]` does not raise and equals the text
after the first `sep`, cut at the next `sep`. -/
theorem split1_of_contains {sep s : List Char}
    (h : pyContains sep s = true) :
    split1 sep s = .ok (split0 sep (restAfterFirst sep s)) := by
  unfold split1 restAfterFirst
  cases hs : splitOnce sep s with
  | none => unfold pyContains at h; rw [hs] at h; simp at h
  | some pr => rfl

/-- The lowercased-message check is exactly case-insensitive occurrence:
`w` occurs in `lower(s)` iff some substring of `s` lowercases to `w`. -/
theorem pyContains_lower_iff {w s : List Char} :
    pyContains w (pyLower s) = true ↔ ∃ t, t <:+: s ∧ pyLower t = w := by
  rw [pyContains_iff]
  unfold pyLower
  rw [List.isInfix_map_iff]
  constructor
  · rintro ⟨t, ht, hw⟩
    exact ⟨t, ht, hw.symm⟩
  · rintro ⟨t, ht, hw⟩
    exact ⟨t, ht, hw.symm⟩

/-! ### The dropdown label round-trip (C6) -/

/-- A suffix of a list is a suffix of any extension on the left. -/
theorem suffix_of_cons {t l : List Char} (c : Char) (h : t <:+ l) : t <:+ c :: l := by
  rcases h with ⟨w, hw⟩
  exact ⟨c :: w, by rw [← hw]; rfl⟩

/-- If the identifier neither contains `" - "` nor ends with `" -"`, the
first occurrence of `" - "` in `id ++ " - " ++ name` is the inserted
separator. -/
theorem splitOnce_label (name : List Char) :
    ∀ id : List Char, pyContains sSep id = false → ¬ ([' ', '-'] <:+ id) →
      splitOnce sSep (id ++ sSep ++ name) = some (id, name) := by
  intro id
  induction id with
  | nil =>
    intro _ _
    show splitOnce sSep (' ' :: '-' :: ' ' :: name) = some ([], name)
    simp [splitOnce, sSep, List.isPrefixOf]
  | cons c id' ih =>
    intro h1 h2
    have h1' : pyContains sSep id' = false := by
      by_contra hc
      have : pyContains sSep id' = true := by
        revert hc; cases pyContains sSep id' <;> simp
      rw [pyContains_cons c this] at h1
      simp at h1
    have h2' : ¬ ([' ', '-'] <:+ id') := fun hs => h2 (suffix_of_cons c hs)
    have hno : sSep.isPrefixOf (c :: (id' ++ sSep ++ name)) = false := by
      cases hb : sSep.isPrefixOf (c :: (id' ++ sSep ++ name)) with
      | false => rfl
      | true =>
        exfalso
        have hb' : (' ' == c && List.isPrefixOf ['-', ' '] (id' ++ sSep ++ name)) = true := hb
        simp only [Bool.and_eq_true, beq_iff_eq] at hb'
        obtain ⟨hc, hrest⟩ := hb'
        subst hc
        match id', h1, h2, hrest with
        | [], _, _, hrest =>
          have : (('-' : Char) == ' ') = true := by
            have := hrest
            simp only [List.nil_append, sSep] at this
            exact (Bool.and_eq_true _ _).mp this |>.1
          simp at this
        | [d], _, h2, hrest =>
          have hd : d = '-' := by
            have := hrest
            simp only [List.cons_append, List.nil_append, List.isPrefixOf, Bool.and_eq_true,
              beq_iff_eq] at this
            exact this.1.symm
          subst hd
          exact h2 ⟨[], rfl⟩
        | d :: e :: id'', h1, _, hrest =>
          have hde : d = '-' ∧ e = ' ' := by
            have := hrest
            simp only [List.cons_append, List.isPrefixOf, Bool.and_eq_true, beq_iff_eq] at this
            exact ⟨this.1.symm, this.2.1.symm⟩
          obtain ⟨hd, he⟩ := hde
          subst hd; subst he
          have : pyContains sSep (' ' :: '-' :: ' ' :: id'') = true :=
            pyContains_iff.mpr (List.IsPrefix.isInfix ⟨id'', rfl⟩)
          rw [this] at h1
          simp at h1
    have hshape : (c :: id') ++ sSep ++ name = c :: (id' ++ sSep ++ name) := by simp
    rw [hshape]
    show splitOnce sSep (c :: (id' ++ sSep ++ name)) = some (c :: id', name)
    simp only [splitOnce, hno, Bool.false_eq_true, if_false]
    rw [ih h1' h2']

/-! ### Cutting at `"|"` versus the second `"File:"` (C4) -/

/-- Stepping `split(sep)[0]` over a non-matching head character. -/
theorem split0_cons_neg {sep : List Char} {c : Char} {t : List Char}
    (h : sep.isPrefixOf (c :: t) = false) :
    split0 sep (c :: t) = c :: split0 sep t := by
  unfold split0
  simp only [splitOnce, h, Bool.false_eq_true, if_false]
  cases hsr : splitOnce sep t with
  | none => rfl
  | some pr => rfl

/-- `split("|")[0]` keeps a non-bar head character. -/
theorem split0_bar_cons {c : Char} {t : List Char} (hc : c ≠ '|') :
    split0 sBar (c :: t) = c :: split0 sBar t := by
  apply split0_cons_neg
  show List.isPrefixOf ['|'] (c :: t) = false
  have hb : (('|' : Char) == c) = false := by
    simp only [beq_eq_false_iff_ne, ne_eq]
    exact fun h => hc h.symm
  simp [List.isPrefixOf, hb]

/-- `split("|")[0]` stops at a bar head character. -/
theorem split0_bar_cons_bar (t : List Char) : split0 sBar ('|' :: t) = [] := by
  unfold split0
  simp [splitOnce, sBar, List.isPrefixOf]

/-- `"File:"` contains no `"|"`, so a `"File:"` prefix survives cutting at
the first `"|"`. -/
theorem fileMarker_in_split0_bar {s : List Char}
    (h : sFileMarker <+: s) : pyContains sFileMarker (split0 sBar s) = true := by
  rcases h with ⟨t, ht⟩
  have h1 : split0 sBar (sFileMarker ++ t) = sFileMarker ++ split0 sBar t := by
    show split0 sBar ('F' :: 'i' :: 'l' :: 'e' :: ':' :: t) = _
    rw [split0_bar_cons (by decide), split0_bar_cons (by decide),
      split0_bar_cons (by decide), split0_bar_cons (by decide),
      split0_bar_cons (by decide)]
    rfl
  rw [← ht, h1]
  exact pyContains_iff.mpr (List.IsPrefix.isInfix ⟨split0 sBar t, rfl⟩)

/-- When no `"File:"` occurs before the first `"|"`, cutting the
`split("File:")[1]`-style segment at the next `"File:"` is invisible to
the subsequent cut at `"|"`. -/
theorem split0_bar_split0_marker {s : List Char}
    (h : pyContains sFileMarker (split0 sBar s) = false) :
    split0 sBar (split0 sFileMarker s) = split0 sBar s := by
  induction s with
  | nil => rfl
  | cons c s' ih =>
    by_cases hp : sFileMarker.isPrefixOf (c :: s') = true
    · exfalso
      have := fileMarker_in_split0_bar ( List.isPrefixOf_iff_prefix.mp hp)
      rw [this] at h
      simp at h
    · have hp' : sFileMarker.isPrefixOf (c :: s') = false := by
        revert hp; cases sFileMarker.isPrefixOf (c :: s') <;> simp
      rw [split0_cons_neg hp']
      by_cases hc : c = '|'
      · subst hc
        rw [split0_bar_cons_bar, split0_bar_cons_bar]
      · rw [split0_bar_cons hc, split0_bar_cons hc]
        rw [split0_bar_cons hc] at h
        have h' : pyContains sFileMarker (split0 sBar s') = false := by
          by_contra hcc
          have : pyContains sFileMarker (split0 sBar s') = true := by
            revert hcc; cases pyContains sFileMarker (split0 sBar s') <;> simp
          rw [pyContains_cons c this] at h
          simp at h
        rw [ih h']

/-! ### Characterizations of the rendering branches -/

/-- `split(sep)[1]` raises `IndexError` when `sep` does not occur. -/
theorem split1_of_not_contains {sep s : List Char}
    (h : pyContains sep s = false) : split1 sep s = .error .indexError := by
  unfold split1
  cases hs : splitOnce sep s with
  | none => rfl
  | some pr => unfold pyContains at h; rw [hs] at h; simp at h

theorem extractFileName_of_contains {msg : List Char}
    (h : pyContains sFileMarker msg = true) :
    extractFileName msg = .ok (codeFileName msg) := by
  unfold extractFileName codeFileName
  rw [split1_of_contains h]
  rfl

theorem extractUrl_of_contains {msg : List Char}
    (h : pyContains sDLFull msg = true) :
    extractUrl msg = .ok (codeUrl msg) := by
  unfold extractUrl codeUrl
  rw [split1_of_contains h]
  rfl

theorem extractUrl_of_not_contains {msg : List Char}
    (h : pyContains sDLFull msg = false) :
    extractUrl msg = .error .indexError := by
  unfold extractUrl
  rw [split1_of_not_contains h]
  rfl

/-- The guard `"Download URL" in msg` follows from the full marker. -/
theorem contains_short_of_full {msg : List Char}
    (h : pyContains sDLFull msg = true) : pyContains sDLShort msg = true := by
  have hpre : sDLShort <+: sDLFull := List.isPrefixOf_iff_prefix.mp (by decide)
  exact pyContains_iff.mpr (List.IsInfix.trans hpre.isInfix (pyContains_iff.mp h))

theorem renderFileBlock_of_contains {msg : List Char}
    (h : pyContains sFileMarker msg = true) :
    renderFileBlock msg
      = .ok ([Effect.fileNameInfo (codeFileName msg)], some (codeFileName msg)) := by
  unfold renderFileBlock
  rw [extractFileName_of_contains h]
  simp [h]

theorem renderFileBlock_of_not_contains {msg : List Char}
    (h : pyContains sFileMarker msg = false) :
    renderFileBlock msg = .ok ([], none) := by
  unfold renderFileBlock
  simp [h]

theorem renderUrlBlock_of_no_short {msg : List Char} (fileName? : Option (List Char))
    (h : pyContains sDLShort msg = false) :
    renderUrlBlock msg fileName? = .ok [Effect.resultTextArea msg] := by
  unfold renderUrlBlock
  simp [h]

theorem renderUrlBlock_of_no_full {msg : List Char} (fileName? : Option (List Char))
    (hshort : pyContains sDLShort msg = true)
    (hfull : pyContains sDLFull msg = false) :
    renderUrlBlock msg fileName? = .error ([], PyErr.indexError) := by
  unfold renderUrlBlock
  rw [extractUrl_of_not_contains hfull]
  simp [hshort]

theorem renderUrlBlock_of_full_none {msg : List Char}
    (hfull : pyContains sDLFull msg = true) :
    renderUrlBlock msg none
      = .error ([Effect.downloadHeader, Effect.downloadLink (codeUrl msg),
          Effect.urlCode (codeUrl msg), Effect.option2Header], PyErr.nameError) := by
  unfold renderUrlBlock
  rw [extractUrl_of_contains hfull]
  simp [contains_short_of_full hfull]

theorem renderUrlBlock_of_full_some {msg fn : List Char}
    (hfull : pyContains sDLFull msg = true) :
    renderUrlBlock msg (some fn)
      = .ok [Effect.downloadHeader, Effect.downloadLink (codeUrl msg),
          Effect.urlCode (codeUrl msg), Effect.option2Header,
          Effect.snowsqlCode (snowsqlCmd fn), Effect.tipInfo] := by
  unfold renderUrlBlock
  rw [extractUrl_of_contains hfull]
  simp [contains_short_of_full hfull]

/-! ### Claim theorems -/

/-- C1: the generation trigger classifies the result message as success
iff `"successfully"` occurs in it case-insensitively; on success the
success banner is the first thing shown, otherwise exactly the error
banner together with the raw message is shown. -/
theorem claim_C1_success_classification (msg : List Char) :
    (classifySuccess msg = true ↔ ∃ t, t <:+: msg ∧ pyLower t = sSuccess) ∧
    (classifySuccess msg = true →
      (renderResult msg).1.head? = some Effect.successBanner) ∧
    (classifySuccess msg = false →
      renderResult msg = ([Effect.failBanner, Effect.errorTextArea msg], none)) := by
  refine ⟨pyContains_lower_iff, ?_, ?_⟩
  · intro h
    unfold renderResult
    simp only [h, if_true]
    cases hf : renderFileBlock msg with
    | error e => rfl
    | ok p =>
      obtain ⟨effsF, fn?⟩ := p
      cases hu : renderUrlBlock msg fn? with
      | error q => obtain ⟨effsU, e⟩ := q; simp [hu]
      | ok effsU => simp [hu]
  · intro h
    unfold renderResult
    simp [h]

/-- C1 witness: a failure message and a success message, evaluated. -/
theorem claim_C1_witness :
    (classifySuccess "Error: account not found".data = false →
      renderResult "Error: account not found".data
        = ([Effect.failBanner, Effect.errorTextArea "Error: account not found".data], none)) ∧
    (renderResult "Error: account not found".data
        = ([Effect.failBanner, Effect.errorTextArea "Error: account not found".data], none)) ∧
    ((renderResult "PowerPoint generated Successfully".data).1.head?
        = some Effect.successBanner) :=
  ⟨(claim_C1_success_classification "Error: account not found".data).2.2,
   (claim_C1_success_classification "Error: account not found".data).2.2 (by decide),
   (claim_C1_success_classification "PowerPoint generated Successfully".data).2.1 (by decide)⟩

/-- C2: a non-empty manual account id always takes precedence over the
dropdown selection; an empty manual field falls back to the dropdown. -/
theorem claim_C2_manual_override (manual : List Char) (accountId? : Option (List Char)) :
    (manual ≠ [] → finalAccountId manual accountId? = some manual) ∧
    (manual = [] → finalAccountId manual accountId? = accountId?) := by
  constructor <;> intro h <;> simp [finalAccountId, h]

/-- C2 witness: manual `"ACC999"` overrides dropdown `"ACC001"`; empty
manual input falls back to the dropdown id. -/
theorem claim_C2_witness :
    finalAccountId "ACC999".data (some "ACC001".data) = some "ACC999".data ∧
    finalAccountId [] (some "ACC001".data) = some "ACC001".data :=
  ⟨(claim_C2_manual_override "ACC999".data (some "ACC001".data)).1 (by decide),
   (claim_C2_manual_override [] (some "ACC001".data)).2 rfl⟩

/-- C3 counterexample: a result string that CONTAINS the quoted text but
has an earlier `"File: a | "` segment extracts file name `"a"`, not
`"Acme_20241027.pptx"`, so the claim's quantification over every
containing string fails. -/
theorem claim_C3_counterexample :
    pyContains
        "File: Acme_20241027.pptx | Download URL (valid for 24 hours): https://x".data
        "File: a | File: Acme_20241027.pptx | Download URL (valid for 24 hours): https://x".data
      = true ∧
    extractFileName
        "File: a | File: Acme_20241027.pptx | Download URL (valid for 24 hours): https://x".data
      = .ok "a".data ∧
    "a".data ≠ "Acme_20241027.pptx".data :=
  ⟨by decide, rfl, by decide⟩

/-- C3 (amended): for the result string consisting exactly of the quoted
text, the extracted file name is `"Acme_20241027.pptx"` and the extracted
URL is `"https://x"`. -/
theorem claim_C3_exact_extraction :
    extractFileName
        "File: Acme_20241027.pptx | Download URL (valid for 24 hours): https://x".data
      = .ok "Acme_20241027.pptx".data ∧
    extractUrl
        "File: Acme_20241027.pptx | Download URL (valid for 24 hours): https://x".data
      = .ok "https://x".data :=
  ⟨rfl, rfl⟩

/-- C6 counterexample: an account id itself containing `" - "` is not
recovered from its label. -/
theorem claim_C6_counterexample :
    extractAccountId (accountLabel "A - B".data "Name".data) = "A".data ∧
    "A".data ≠ "A - B".data :=
  ⟨rfl, by decide⟩

/-- C6 (amended): provided the account id does not contain `" - "` and
does not end with `" -"`, splitting the label `"<id> - <name>"` on the
first `" - "` recovers the id. -/
theorem claim_C6_label_roundtrip (accountId accountName : List Char)
    (h1 : pyContains sSep accountId = false)
    (h2 : ¬ ([' ', '-'] <:+ accountId)) :
    extractAccountId (accountLabel accountId accountName) = accountId := by
  unfold extractAccountId accountLabel split0
  rw [splitOnce_label accountName accountId h1 h2]

/-- C6 witness: the id `"ACC001"` round-trips through its label. -/
theorem claim_C6_witness :
    extractAccountId (accountLabel "ACC001".data "Acme Corp".data) = "ACC001".data :=
  claim_C6_label_roundtrip "ACC001".data "Acme Corp".data (by decide) (by decide)

/-- C7: a success-classified message without the `"File:"` and
`"Download URL"` markers degrades to the raw message in a text area, with
no exception and no error message. -/
theorem claim_C7_silent_degrade (msg : List Char)
    (hcls : classifySuccess msg = true)
    (hfile : pyContains sFileMarker msg = false)
    (hdl : pyContains sDLShort msg = false) :
    renderResult msg = ([Effect.successBanner, Effect.resultTextArea msg], none) ∧
    handleGenerate (.ok msg) = [Effect.successBanner, Effect.resultTextArea msg] := by
  have hr : renderResult msg = ([Effect.successBanner, Effect.resultTextArea msg], none) := by
    unfold renderResult
    rw [renderFileBlock_of_not_contains hfile]
    simp only [hcls, if_true]
    rw [renderUrlBlock_of_no_short none hdl]
    rfl
  refine ⟨hr, ?_⟩
  have hdef : handleGenerate (.ok msg)
      = (match renderResult msg with
         | (effs, none) => effs
         | (effs, some _) => effs ++ [Effect.generationError]) := rfl
  rw [hdef, hr]

/-- C7 witness: the bare message `"successfully"`. -/
theorem claim_C7_witness :
    renderResult "successfully".data
      = ([Effect.successBanner, Effect.resultTextArea "successfully".data], none) ∧
    handleGenerate (.ok "successfully".data)
      = [Effect.successBanner, Effect.resultTextArea "successfully".data] :=
  claim_C7_silent_degrade "successfully".data (by decide) (by decide) (by decide)

/-- In the success branch with the `"File:"` guard satisfied, the
computed file name is displayed whatever the download branch does. -/
theorem fileNameInfo_mem {msg : List Char}
    (hcls : classifySuccess msg = true)
    (hfile : pyContains sFileMarker msg = true) :
    Effect.fileNameInfo (codeFileName msg) ∈ (renderResult msg).1 := by
  unfold renderResult
  rw [renderFileBlock_of_contains hfile]
  simp only [hcls, if_true]
  cases hu : renderUrlBlock msg (some (codeFileName msg)) with
  | error q => obtain ⟨effsU, e⟩ := q; simp [hu]
  | ok effsU => simp [hu]

/-- In the success branch with the full URL marker present, the computed
URL is displayed (in the copyable code block) whether or not `file_name`
was assigned. -/
theorem urlCode_mem {msg : List Char}
    (hcls : classifySuccess msg = true)
    (hfull : pyContains sDLFull msg = true) :
    Effect.urlCode (codeUrl msg) ∈ (renderResult msg).1 := by
  unfold renderResult
  by_cases hfile : pyContains sFileMarker msg = true
  · rw [renderFileBlock_of_contains hfile]
    simp only [hcls, if_true]
    rw [renderUrlBlock_of_full_some hfull]
    simp
  · have hfile' : pyContains sFileMarker msg = false := by
      revert hfile; cases pyContains sFileMarker msg <;> simp
    rw [renderFileBlock_of_not_contains hfile']
    simp only [hcls, if_true]
    rw [renderUrlBlock_of_full_none hfull]
    simp

/-- C4 counterexample: in the success message `"successfully
File:aFile:b|c"` the displayed file name is `"a"` (Python's `split` cuts
the segment at the SECOND `"File:"`), not the claimed text `"aFile:b"`
between the first `"File:"` and the next `"|"`. -/
theorem claim_C4_counterexample :
    classifySuccess "successfully File:aFile:b|c".data = true ∧
    (renderResult "successfully File:aFile:b|c".data).1
      = [Effect.successBanner, Effect.fileNameInfo "a".data,
         Effect.resultTextArea "successfully File:aFile:b|c".data] ∧
    claimedFileName "successfully File:aFile:b|c".data = "aFile:b".data ∧
    Effect.fileNameInfo (claimedFileName "successfully File:aFile:b|c".data)
      ∉ (renderResult "successfully File:aFile:b|c".data).1 :=
  ⟨by decide, rfl, rfl, by decide⟩

/-- C4 (amended): when additionally no second `"File:"` occurs in the
span before the cut at `"|"`, the displayed file name is exactly the text
between the first `"File:"` and the next `"|"` (or end of message),
stripped. -/
theorem claim_C4_file_name_display (msg : List Char)
    (hcls : classifySuccess msg = true)
    (hfile : pyContains sFileMarker msg = true)
    (hno : pyContains sFileMarker (split0 sBar (restAfterFirst sFileMarker msg)) = false) :
    Effect.fileNameInfo (claimedFileName msg) ∈ (renderResult msg).1 := by
  have heq : codeFileName msg = claimedFileName msg := by
    unfold codeFileName claimedFileName
    rw [split0_bar_split0_marker hno]
  rw [← heq]
  exact fileNameInfo_mem hcls hfile

/-- C4 witness: a single-`"File:"` message, hypotheses evaluated. -/
theorem claim_C4_witness :
    Effect.fileNameInfo (claimedFileName "successfully File: a.pptx | x".data)
      ∈ (renderResult "successfully File: a.pptx | x".data).1 :=
  claim_C4_file_name_display "successfully File: a.pptx | x".data
    (by decide) (by decide) (by decide)

/-- C5 counterexample: when the full marker occurs twice, the code takes
the text BETWEEN the two markers, not the claimed text to the end of the
string. -/
theorem claim_C5_counterexample :
    classifySuccess
        "successfully Download URL (valid for 24 hours): https://x Download URL (valid for 24 hours): y".data
      = true ∧
    extractUrl
        "successfully Download URL (valid for 24 hours): https://x Download URL (valid for 24 hours): y".data
      = .ok "https://x".data ∧
    claimedUrl
        "successfully Download URL (valid for 24 hours): https://x Download URL (valid for 24 hours): y".data
      ≠ "https://x".data :=
  ⟨by decide, rfl, by decide⟩

/-- C5 (amended): when additionally the full marker occurs only once, the
extracted URL is the text following it to the end of the string,
stripped, and it is displayed. -/
theorem claim_C5_url_extraction (msg : List Char)
    (hcls : classifySuccess msg = true)
    (hfull : pyContains sDLFull msg = true)
    (honce : pyContains sDLFull (restAfterFirst sDLFull msg) = false) :
    extractUrl msg = .ok (claimedUrl msg) ∧
    Effect.urlCode (claimedUrl msg) ∈ (renderResult msg).1 := by
  have heq : codeUrl msg = claimedUrl msg := by
    unfold codeUrl claimedUrl
    rw [split0_of_not_contains honce]
  constructor
  · rw [extractUrl_of_contains hfull, heq]
  · rw [← heq]
    exact urlCode_mem hcls hfull

/-- C5 witness: a well-formed result message, hypotheses evaluated. -/
theorem claim_C5_witness :
    extractUrl "Generated successfully. File: a.pptx | Download URL (valid for 24 hours): https://y".data
      = .ok (claimedUrl "Generated successfully. File: a.pptx | Download URL (valid for 24 hours): https://y".data) ∧
    Effect.urlCode (claimedUrl "Generated successfully. File: a.pptx | Download URL (valid for 24 hours): https://y".data)
      ∈ (renderResult "Generated successfully. File: a.pptx | Download URL (valid for 24 hours): https://y".data).1 :=
  claim_C5_url_extraction
    "Generated successfully. File: a.pptx | Download URL (valid for 24 hours): https://y".data
    (by decide) (by decide) (by decide)

/-- C8: every exception from the procedure call or from rendering is
caught by the handler and surfaced as the inline generation-error
message; `handleGenerate` is total, so nothing propagates. -/
theorem claim_C8_exceptions_caught (callResult : Except PyErr (List Char)) :
    (∀ e, callResult = .error e → handleGenerate callResult = [Effect.generationError]) ∧
    (∀ msg e, callResult = .ok msg → (renderResult msg).2 = some e →
      handleGenerate callResult = (renderResult msg).1 ++ [Effect.generationError]) := by
  constructor
  · rintro e rfl
    rfl
  · rintro msg e rfl h
    have hdef : handleGenerate (.ok msg)
        = (match renderResult msg with
           | (effs, none) => effs
           | (effs, some _) => effs ++ [Effect.generationError]) := rfl
    cases hr : renderResult msg with
    | mk effs err? =>
      have h' : err? = some e := by rw [hr] at h; exact h
      rw [hdef, hr, h']

/-- C8 witness: a failing call; and a message whose rendering raises. -/
theorem claim_C8_witness :
    handleGenerate (.error PyErr.indexError) = [Effect.generationError] ∧
    handleGenerate (.ok "successfully Download URL oops".data)
      = [Effect.successBanner, Effect.generationError] := by
  constructor
  · exact (claim_C8_exceptions_caught (.error PyErr.indexError)).1 PyErr.indexError rfl
  · have h := (claim_C8_exceptions_caught (.ok "successfully Download URL oops".data)).2
      "successfully Download URL oops".data PyErr.indexError rfl (by rfl)
    exact h.trans (by decide)

/-- C9: the stored procedure is never called with an empty or missing
account id: any id the call receives is non-empty, and a disabled
generate button implies no call. -/
theorem claim_C9_no_empty_call (buttonClicked : Bool) (finalId? : Option (List Char)) :
    (∀ s, procCalledWith buttonClicked finalId? = some s → s ≠ []) ∧
    (generateDisabled finalId? = true → procCalledWith buttonClicked finalId? = none) := by
  constructor
  · intro s h hnil
    subst hnil
    unfold procCalledWith at h
    by_cases hb : (buttonClicked && pyTruthy finalId?) = true
    · rw [if_pos hb] at h
      obtain ⟨-, ht⟩ := (Bool.and_eq_true _ _).mp hb
      rw [h] at ht
      simp [pyTruthy] at ht
    · rw [if_neg hb] at h
      cases h
  · intro hd
    unfold generateDisabled at hd
    have ht : pyTruthy finalId? = false := by
      revert hd; cases pyTruthy finalId? <;> simp
    unfold procCalledWith
    simp [ht]

/-- C9 witness: a non-empty id passed through; an empty id disables the
button and blocks the call. -/
theorem claim_C9_witness :
    "ACC001".data ≠ [] ∧ procCalledWith true (some []) = none :=
  ⟨(claim_C9_no_empty_call true (some "ACC001".data)).1 "ACC001".data rfl,
   (claim_C9_no_empty_call true (some [])).2 rfl⟩

/-- C10 (amended): for a success-classified message, (a) if
`"Download URL"` occurs but the full marker does not, rendering raises
`IndexError` and the handler shows the generation error, with no download
link and no raw-message text area; (b) if the full marker occurs but
`"File:"` does not, rendering shows the link and URL, then raises
`NameError` at the SnowSQL command, and the handler appends the
generation error; no raw-message text area is shown. -/
theorem claim_C10_render_exceptions (msg : List Char)
    (hcls : classifySuccess msg = true) :
    (pyContains sDLShort msg = true → pyContains sDLFull msg = false →
      (renderResult msg).2 = some PyErr.indexError ∧
      hasDownloadLink (handleGenerate (.ok msg)) = false ∧
      hasRawTextArea (handleGenerate (.ok msg)) = false ∧
      Effect.generationError ∈ handleGenerate (.ok msg)) ∧
    (pyContains sFileMarker msg = false → pyContains sDLFull msg = true →
      (renderResult msg).2 = some PyErr.nameError ∧
      hasDownloadLink (handleGenerate (.ok msg)) = true ∧
      hasRawTextArea (handleGenerate (.ok msg)) = false ∧
      Effect.generationError ∈ handleGenerate (.ok msg)) := by
  have hdef : handleGenerate (.ok msg)
      = (match renderResult msg with
         | (effs, none) => effs
         | (effs, some _) => effs ++ [Effect.generationError]) := rfl
  constructor
  · intro hshort hfull
    by_cases hfile : pyContains sFileMarker msg = true
    · have hr : renderResult msg
          = ([Effect.successBanner, Effect.fileNameInfo (codeFileName msg)],
             some PyErr.indexError) := by
        unfold renderResult
        rw [renderFileBlock_of_contains hfile]
        simp only [hcls, if_true]
        rw [renderUrlBlock_of_no_full (some (codeFileName msg)) hshort hfull]
        rfl
      have hb : handleGenerate (.ok msg)
          = [Effect.successBanner, Effect.fileNameInfo (codeFileName msg),
             Effect.generationError] := by
        rw [hdef, hr]
        rfl
      exact ⟨by rw [hr], by rw [hb]; rfl, by rw [hb]; rfl, by rw [hb]; simp⟩
    · have hfile' : pyContains sFileMarker msg = false := by
        revert hfile; cases pyContains sFileMarker msg <;> simp
      have hr : renderResult msg = ([Effect.successBanner], some PyErr.indexError) := by
        unfold renderResult
        rw [renderFileBlock_of_not_contains hfile']
        simp only [hcls, if_true]
        rw [renderUrlBlock_of_no_full none hshort hfull]
        rfl
      have hb : handleGenerate (.ok msg)
          = [Effect.successBanner, Effect.generationError] := by
        rw [hdef, hr]
        rfl
      exact ⟨by rw [hr], by rw [hb]; rfl, by rw [hb]; rfl, by rw [hb]; simp⟩
  · intro hfile hfull
    have hr : renderResult msg
        = ([Effect.successBanner, Effect.downloadHeader,
            Effect.downloadLink (codeUrl msg), Effect.urlCode (codeUrl msg),
            Effect.option2Header], some PyErr.nameError) := by
      unfold renderResult
      rw [renderFileBlock_of_not_contains hfile]
      simp only [hcls, if_true]
      rw [renderUrlBlock_of_full_none hfull]
      rfl
    have hb : handleGenerate (.ok msg)
        = [Effect.successBanner, Effect.downloadHeader,
           Effect.downloadLink (codeUrl msg), Effect.urlCode (codeUrl msg),
           Effect.option2Header, Effect.generationError] := by
      rw [hdef, hr]
      rfl
    exact ⟨by rw [hr], by rw [hb]; rfl, by rw [hb]; rfl, by rw [hb]; simp⟩

/-- C10 counterexample: with the full marker present and `"File:"`
absent, the download link IS shown (before the `NameError`), so the
handler's error message does not replace the download link as claimed. -/
theorem claim_C10_counterexample :
    classifySuccess "successfully Download URL (valid for 24 hours): https://x".data = true ∧
    pyContains sFileMarker "successfully Download URL (valid for 24 hours): https://x".data = false ∧
    handleGenerate (.ok "successfully Download URL (valid for 24 hours): https://x".data)
      = [Effect.successBanner, Effect.downloadHeader,
         Effect.downloadLink "https://x".data, Effect.urlCode "https://x".data,
         Effect.option2Header, Effect.generationError] ∧
    hasDownloadLink
        (handleGenerate (.ok "successfully Download URL (valid for 24 hours): https://x".data))
      = true :=
  ⟨by decide, by decide, rfl, rfl⟩

/-- C10 witness: both sub-cases evaluated at concrete messages. -/
theorem claim_C10_witness :
    ((renderResult "successfully Download URL missing colon".data).2
        = some PyErr.indexError ∧
      hasDownloadLink (handleGenerate (.ok "successfully Download URL missing colon".data)) = false ∧
      hasRawTextArea (handleGenerate (.ok "successfully Download URL missing colon".data)) = false ∧
      Effect.generationError ∈ handleGenerate (.ok "successfully Download URL missing colon".data)) ∧
    ((renderResult "successfully Download URL (valid for 24 hours): https://z".data).2
        = some PyErr.nameError ∧
      hasDownloadLink (handleGenerate (.ok "successfully Download URL (valid for 24 hours): https://z".data)) = true ∧
      hasRawTextArea (handleGenerate (.ok "successfully Download URL (valid for 24 hours): https://z".data)) = false ∧
      Effect.generationError ∈ handleGenerate (.ok "successfully Download URL (valid for 24 hours): https://z".data)) :=
  ⟨(claim_C10_render_exceptions "successfully Download URL missing colon".data
      (by decide)).1 (by decide) (by decide),
   (claim_C10_render_exceptions "successfully Download URL (valid for 24 hours): https://z".data
      (by decide)).2 (by decide) (by decide)⟩

end PPTApp
